import Mathlib

/-
Verification of the PixelShelf client feed and follow-control logic.

Part I embeds `src/components/feature-specific/follow-button.tsx`
(`FollowButton`, its `handleFollow` click handler, the prop-sync effect at
lines 46-48, and the self-follow render guard at lines 86-89) as an explicit
event-step machine over the component state.

Part II embeds the `DashboardFeed` component: `handleViewModeChange`,
`refreshFeed` (with the missing `break` in the `creators` case),
`fetchMoreForCurrentTab` / `fetchNextPage`, the query-argument construction
for the four sources, and the page-flattening of the infinite-query data.
-/

namespace PixelShelf

/-- The authenticated session, as exposed by `useSession`; only the user id
is relevant to the follow control (`session?.user?.id`). -/
structure Session where
  userId : String
deriving DecidableEq, Repr

/-- Observable effects emitted by the follow control: `toast.error`,
`router.push`, the follow / unfollow mutations, and the `onFollowChange`
callback. -/
inductive FollowEffect where
  | toastError (msg : String)
  | pushRoute (route : String)
  | mutateFollow (userId : String)
  | mutateUnfollow (userId : String)
  | emitFollowChange (value : Bool)
deriving DecidableEq, Repr

/-- Effects that issue a follow or unfollow mutation call. -/
def isMutationEffect : FollowEffect → Bool
  | .mutateFollow _ => true
  | .mutateUnfollow _ => true
  | _ => false

/-- The reactive state of one `FollowButton` instance: the `isFollowing`
local state, the current `initialIsFollowing` prop value (`baseline`), and,
while a mutation is in flight, the prop value that the pending
`handleFollow` closure captured (the catch block reverts to it). The button
is disabled exactly while `pendingCaptured` is set (`isLoading`). -/
structure FollowButtonState where
  isFollowing : Bool
  baseline : Bool
  pendingCaptured : Option Bool
deriving DecidableEq, Repr

/-- External events driving a `FollowButton` instance: a click on the
button, the settlement of the in-flight mutation (`mutateAsync` resolving
or rejecting), and a change of the `isFollowing` prop supplied by the
caller. -/
inductive FollowButtonEvent where
  | click
  | settle (result : Except String Unit)
  | propChange (newBaseline : Bool)

/-- One step of the `FollowButton` component, read off the source:
a click on a disabled button (mutation pending) does nothing; with no
session, `handleFollow` emits the sign-in toast and pushes `/login` without
touching state; otherwise it flips `isFollowing` optimistically, notifies
`onFollowChange`, and issues the mutation, capturing the current
`initialIsFollowing` prop in the closure. A rejected mutation runs the
catch block: `setIsFollowing(initialIsFollowing)` with the captured prop
value, `onFollowChange(initialIsFollowing)`, and an error toast. The
prop-sync effect (`useEffect` on `[initialIsFollowing]`) unconditionally
runs `setIsFollowing(initialIsFollowing)` whenever the prop value changes. -/
def fbStep (session : Option Session) (userId : String)
    (s : FollowButtonState) (e : FollowButtonEvent) :
    FollowButtonState × List FollowEffect :=
  match e with
  | .click =>
    if s.pendingCaptured.isSome then (s, [])
    else
      match session with
      | none => (s, [.toastError "Please sign in to follow users", .pushRoute "/login"])
      | some _ =>
        if s.isFollowing then
          ({ s with isFollowing := false, pendingCaptured := some s.baseline },
           [.emitFollowChange false, .mutateUnfollow userId])
        else
          ({ s with isFollowing := true, pendingCaptured := some s.baseline },
           [.emitFollowChange true, .mutateFollow userId])
  | .settle result =>
    match s.pendingCaptured with
    | none => (s, [])
    | some captured =>
      match result with
      | .ok _ => ({ s with pendingCaptured := none }, [])
      | .error msg =>
        ({ s with isFollowing := captured, pendingCaptured := none },
         [.emitFollowChange captured, .toastError msg])
  | .propChange b =>
    if b = s.baseline then (s, [])
    else ({ s with isFollowing := b, baseline := b }, [])

/-- Run a `FollowButton` instance over a sequence of events, accumulating
the emitted effects. -/
def fbRun (session : Option Session) (userId : String)
    (s : FollowButtonState) : List FollowButtonEvent → FollowButtonState × List FollowEffect
  | [] => (s, [])
  | e :: rest =>
    let step := fbStep session userId s e
    let tail := fbRun session userId step.1 rest
    (tail.1, step.2 ++ tail.2)

/-- What the follow control renders when not loading: its text label and
whether it is disabled. -/
structure FollowButtonView where
  label : String
  disabled : Bool
deriving DecidableEq, Repr

/-- The render function of `FollowButton`: when `session?.user?.id` equals
the target `userId` the component returns `null` (no control at all);
otherwise it renders a button labelled by the follow state and disabled
while a mutation is loading. -/
def renderFollowButton (session : Option Session) (userId : String)
    (isFollowing isLoading : Bool) : Option FollowButtonView :=
  if session.map Session.userId = some userId then none
  else some { label := if isFollowing then "Following" else "Follow", disabled := isLoading }

/-- View mode of the feed: grid or list layout. -/
inductive ViewMode where
  | grid
  | list
deriving DecidableEq, Repr

/-- The view-related state of a `DashboardFeed` instance: the `viewMode`,
`currentItemsPerRow`, and `showCurrentSidecards` pieces of `useState`. -/
structure ViewState where
  viewMode : ViewMode
  currentItemsPerRow : Nat
  showCurrentSidecards : Bool
deriving DecidableEq, Repr

/-- The `useState` initial values: `viewMode` from `defaultViewMode`,
`currentItemsPerRow` from the `itemsPerRow` prop, `showCurrentSidecards`
from the `showSidecards` prop. -/
def initialViewState (defaultViewMode : ViewMode) (itemsPerRow : Nat)
    (showSidecards : Bool) : ViewState :=
  { viewMode := defaultViewMode
    currentItemsPerRow := itemsPerRow
    showCurrentSidecards := showSidecards }

/-- The mount effect at lines 108-117 of the feed source: set `viewMode`
from `defaultViewMode`; then with `list` and sidecards force one item per
row with sidecards, with `grid` and no sidecards restore the configured
`itemsPerRow` without sidecards, and otherwise leave the row state alone. -/
def initializeViewState (defaultViewMode : ViewMode) (itemsPerRow : Nat)
    (showSidecards : Bool) (s : ViewState) : ViewState :=
  let s1 := { s with viewMode := defaultViewMode }
  if defaultViewMode = .list ∧ showSidecards then
    { s1 with currentItemsPerRow := 1, showCurrentSidecards := true }
  else if defaultViewMode = .grid ∧ showSidecards = false then
    { s1 with currentItemsPerRow := itemsPerRow, showCurrentSidecards := false }
  else s1

/-- The `handleViewModeChange` handler: set `viewMode` to the requested
mode; when the feed has the `showSidecards` capability, `list` forces a
single column with sidecards and `grid` sets `currentItemsPerRow` to the
literal `4` and disables sidecards. Without the capability only `viewMode`
changes. The `onViewModeChange` callback invocation is an external
notification and is not part of the state. -/
def handleViewModeChange (showSidecards : Bool) (s : ViewState)
    (mode : ViewMode) : ViewState :=
  let s1 := { s with viewMode := mode }
  if showSidecards then
    if mode = .list then
      { s1 with currentItemsPerRow := 1, showCurrentSidecards := true }
    else
      { s1 with currentItemsPerRow := 4, showCurrentSidecards := false }
  else s1

/-- The four feed sources instantiated by `DashboardFeed`. -/
inductive FeedSource where
  | trending
  | following
  | assets
  | creators
deriving DecidableEq, Repr

/-- Pagination flags of one source in infinite mode: `hasNextPage` and
`isFetchingNextPage` as reported by its infinite query. -/
structure SourceFlags where
  hasNextPage : Bool
  isFetchingNextPage : Bool
deriving DecidableEq, Repr

/-- The pagination flags of all four sources. -/
structure FeedFlags where
  trending : SourceFlags
  following : SourceFlags
  assets : SourceFlags
  creators : SourceFlags
deriving DecidableEq, Repr

/-- Select the flags of one source. -/
def FeedFlags.get (f : FeedFlags) : FeedSource → SourceFlags
  | .trending => f.trending
  | .following => f.following
  | .assets => f.assets
  | .creators => f.creators

/-- The source whose data `getTabData` reads for a given `activeTab`
string; unknown tab identifiers fall back to `trending` (the `default`
branch of the switch). -/
def activeSource (activeTab : String) : FeedSource :=
  if activeTab = "trending" then .trending
  else if activeTab = "following" then .following
  else if activeTab = "assets" then .assets
  else if activeTab = "creators" then .creators
  else .trending

/-- The `fetchMoreForCurrentTab` callback: switch on `activeTab`; for each
known tab, issue that tab's next-page request only when its
`hasNextPage` flag is true and its `isFetchingNextPage` flag is false; the
`default` branch does nothing. The returned list holds the page requests
issued by one invocation. -/
def fetchMoreForCurrentTab (activeTab : String) (f : FeedFlags) :
    List FeedSource :=
  if activeTab = "trending" then
    if f.trending.hasNextPage && !f.trending.isFetchingNextPage then [.trending] else []
  else if activeTab = "following" then
    if f.following.hasNextPage && !f.following.isFetchingNextPage then [.following] else []
  else if activeTab = "assets" then
    if f.assets.hasNextPage && !f.assets.isFetchingNextPage then [.assets] else []
  else if activeTab = "creators" then
    if f.creators.hasNextPage && !f.creators.isFetchingNextPage then [.creators] else []
  else []

/-- The `fetchNextPage` callback handed to the intersection observer: gate
on the active tab's `hasMore` and `isLoadingMore` (read via `getTabData`
from the active source, infinite mode) and then delegate to
`fetchMoreForCurrentTab`. -/
def fetchNextPage (activeTab : String) (f : FeedFlags) : List FeedSource :=
  if (f.get (activeSource activeTab)).hasNextPage
      && !(f.get (activeSource activeTab)).isFetchingNextPage then
    fetchMoreForCurrentTab activeTab f
  else []

/-- The reload operations `refreshFeed` can invoke: per source, the
infinite-mode `refetch` or the paged-mode `refetch`. -/
inductive ReloadCall where
  | trendingInfinite
  | trendingPaged
  | followingInfinite
  | followingPaged
  | assetsInfinite
  | assetsPaged
  | creatorsInfinite
  | creatorsPaged
deriving DecidableEq, Repr

/-- The sequence of reload calls made by the `switch (activeTab)` inside
`refreshFeed`. The `trending`, `following` and `assets` cases end in
`break`; the `creators` case has no `break`, so after the creators reload
execution falls through into the `default` case and additionally performs
the trending reload. Unknown tabs hit only the `default` case. -/
def refreshCalls (activeTab : String) (infiniteScroll : Bool) :
    List ReloadCall :=
  if activeTab = "trending" then
    [if infiniteScroll then .trendingInfinite else .trendingPaged]
  else if activeTab = "following" then
    [if infiniteScroll then .followingInfinite else .followingPaged]
  else if activeTab = "assets" then
    [if infiniteScroll then .assetsInfinite else .assetsPaged]
  else if activeTab = "creators" then
    [if infiniteScroll then ReloadCall.creatorsInfinite else .creatorsPaged,
     if infiniteScroll then ReloadCall.trendingInfinite else .trendingPaged]
  else
    [if infiniteScroll then .trendingInfinite else .trendingPaged]

/-- Await the reload calls in order; a rejected reload aborts the rest of
the try block. Returns the calls actually performed and the propagated
outcome. -/
def runReloads (outcome : ReloadCall → Except String Unit) :
    List ReloadCall → List ReloadCall × Except String Unit
  | [] => ([], .ok ())
  | c :: rest =>
    match outcome c with
    | .ok _ =>
      let r := runReloads outcome rest
      (c :: r.1, r.2)
    | .error e => ([c], .error e)

/-- The observable behaviour of one `refreshFeed` invocation: the value
passed to `setIsRefreshing` on entry, the reload calls performed, the
propagated outcome of the try block, and the delay of the
`setIsRefreshing(false)` reset scheduled by the `finally` block. -/
structure RefreshRun where
  setRefreshingOnEntry : Bool
  callsMade : List ReloadCall
  outcome : Except String Unit
  scheduledResetDelayMs : Option Nat
deriving Repr

/-- The `refreshFeed` handler: `setIsRefreshing(true)`, then the tab
switch inside a try block, and a `finally` block that always runs
`setTimeout(() => setIsRefreshing(false), 500)`, whether the awaited
reload resolved or rejected. -/
def refreshFeed (activeTab : String) (infiniteScroll : Bool)
    (outcome : ReloadCall → Except String Unit) : RefreshRun :=
  let r := runReloads outcome (refreshCalls activeTab infiniteScroll)
  { setRefreshingOnEntry := true
    callsMade := r.1
    outcome := r.2
    scheduledResetDelayMs := some 500 }

/-- An asset item; only its identity matters to the pagination claims. -/
structure Asset where
  id : String
deriving DecidableEq, Repr

/-- One fetched page of the infinite assets query. -/
structure AssetPage where
  assets : List Asset
deriving DecidableEq, Repr

/-- The `data` object of an infinite assets query: the fetched pages in
fetch order. -/
structure InfiniteAssetsData where
  pages : List AssetPage
deriving DecidableEq, Repr

/-- The flattening performed by the feed for each infinite source, for
example `trendingInfiniteData ? trendingInfiniteData.pages.flatMap(page =>
page.assets) : []`. -/
def flattenInfiniteAssets (d : Option InfiniteAssetsData) : List Asset :=
  match d with
  | some dd => dd.pages.flatMap (fun page => page.assets)
  | none => []

/-- The JavaScript coercion `selectedType || undefined`: `null` and the
empty string are falsy and become `undefined`; any other string passes
through. -/
def jsOrUndefined (s : Option String) : Option String :=
  match s with
  | none => none
  | some v => if v = "" then none else some v

/-- The arguments handed to an assets query (`useInfiniteAssetsQuery` or
`useAssetsQuery`); absent fields are `none` (`undefined`). The constant
`limit: PAGINATION.DEFAULT_LIMIT` carries no claim-relevant information
and is omitted. -/
structure AssetQueryArgs where
  sort : String
  search : Option String
  tag : Option String
  type : Option String
  following : Bool
  enabled : Bool
deriving Repr

/-- The arguments handed to a creators query (`useInfiniteCreatorsQuery`
or `useCreatorsQuery`); these queries take no `type` field. -/
structure CreatorQueryArgs where
  search : Option String
  tag : Option String
  sort : String
  enabled : Bool
deriving Repr

/-- Arguments of the infinite trending query (feed source lines 128-135). -/
def trendingInfiniteQueryArgs (activeTab searchQuery : String)
    (selectedTags : List String) (selectedType : Option String)
    (infiniteScroll : Bool) : AssetQueryArgs :=
  { sort := "popular"
    search := if activeTab = "trending" then some searchQuery else none
    tag := if activeTab = "trending" ∧ 0 < selectedTags.length then selectedTags.head? else none
    type := if activeTab = "trending" then jsOrUndefined selectedType else none
    following := false
    enabled := (activeTab == "trending") && infiniteScroll }

/-- Arguments of the infinite following query (feed source lines 146-154). -/
def followingInfiniteQueryArgs (activeTab searchQuery : String)
    (selectedTags : List String) (selectedType : Option String)
    (sessionPresent infiniteScroll : Bool) : AssetQueryArgs :=
  { sort := "latest"
    search := if activeTab = "following" then some searchQuery else none
    tag := if activeTab = "following" ∧ 0 < selectedTags.length then selectedTags.head? else none
    type := if activeTab = "following" then jsOrUndefined selectedType else none
    following := true
    enabled := (activeTab == "following") && sessionPresent && infiniteScroll }

/-- Arguments of the infinite assets query (feed source lines 165-172). -/
def assetsInfiniteQueryArgs (activeTab searchQuery : String)
    (selectedTags : List String) (selectedType : Option String)
    (infiniteScroll : Bool) : AssetQueryArgs :=
  { sort := "latest"
    search := if activeTab = "assets" then some searchQuery else none
    tag := if activeTab = "assets" ∧ 0 < selectedTags.length then selectedTags.head? else none
    type := if activeTab = "assets" then jsOrUndefined selectedType else none
    following := false
    enabled := (activeTab == "assets") && infiniteScroll }

/-- Arguments of the infinite creators query (feed source lines 183-188). -/
def creatorsInfiniteQueryArgs (activeTab searchQuery : String)
    (selectedTags : List String) (infiniteScroll : Bool) : CreatorQueryArgs :=
  { search := if activeTab = "creators" then some searchQuery else none
    tag := if activeTab = "creators" ∧ 0 < selectedTags.length then selectedTags.head? else none
    sort := "popular"
    enabled := (activeTab == "creators") && infiniteScroll }

/-- Arguments of the paged trending query (feed source lines 199-206). -/
def trendingPagedQueryArgs (activeTab searchQuery : String)
    (selectedTags : List String) (selectedType : Option String)
    (infiniteScroll : Bool) : AssetQueryArgs :=
  { sort := "popular"
    search := if activeTab = "trending" then some searchQuery else none
    tag := if activeTab = "trending" ∧ 0 < selectedTags.length then selectedTags.head? else none
    type := if activeTab = "trending" then jsOrUndefined selectedType else none
    following := false
    enabled := (activeTab == "trending") && !infiniteScroll }

/-- Arguments of the paged following query (feed source lines 216-224). -/
def followingPagedQueryArgs (activeTab searchQuery : String)
    (selectedTags : List String) (selectedType : Option String)
    (sessionPresent infiniteScroll : Bool) : AssetQueryArgs :=
  { sort := "latest"
    search := if activeTab = "following" then some searchQuery else none
    tag := if activeTab = "following" ∧ 0 < selectedTags.length then selectedTags.head? else none
    type := if activeTab = "following" then jsOrUndefined selectedType else none
    following := true
    enabled := (activeTab == "following") && sessionPresent && !infiniteScroll }

/-- Arguments of the paged assets query (feed source lines 234-241). -/
def assetsPagedQueryArgs (activeTab searchQuery : String)
    (selectedTags : List String) (selectedType : Option String)
    (infiniteScroll : Bool) : AssetQueryArgs :=
  { sort := "latest"
    search := if activeTab = "assets" then some searchQuery else none
    tag := if activeTab = "assets" ∧ 0 < selectedTags.length then selectedTags.head? else none
    type := if activeTab = "assets" then jsOrUndefined selectedType else none
    following := false
    enabled := (activeTab == "assets") && !infiniteScroll }

/-- Arguments of the paged creators query (feed source lines 251-256). -/
def creatorsPagedQueryArgs (activeTab searchQuery : String)
    (selectedTags : List String) (infiniteScroll : Bool) : CreatorQueryArgs :=
  { search := if activeTab = "creators" then some searchQuery else none
    tag := if activeTab = "creators" ∧ 0 < selectedTags.length then selectedTags.head? else none
    sort := "popular"
    enabled := (activeTab == "creators") && !infiniteScroll }

/-- The guarded tag forwarding `cond && selectedTags.length > 0 ?
selectedTags[0] : undefined` equals `selectedTags.head?` under the bare
condition: an empty list has no head. -/
theorem tag_guard_eq_head (p : Prop) [Decidable p] (tags : List String) :
    (if p ∧ 0 < tags.length then tags.head? else none)
      = (if p then tags.head? else none) := by
  cases tags <;> split_ifs <;> simp_all

/-- C1, counterexample: the claim says a failed mutation rolls the
rendered state back to the value held immediately before the optimistic
flip, for every sequence of prior successful toggles. Concretely: start
with `initialIsFollowing = false`, perform one successful follow (local
state becomes `true`), then toggle again and let the unfollow mutation
fail. The value held immediately before that second flip was `true`, but
the catch block restores the `initialIsFollowing` prop and the rendered
state ends at `false`. -/
theorem C1_rollback_counterexample :
    (fbRun (some ⟨"viewer"⟩) "creator" ⟨false, false, none⟩
        [.click, .settle (.ok ())]).1.isFollowing = true
    ∧ (fbRun (some ⟨"viewer"⟩) "creator" ⟨false, false, none⟩
        [.click, .settle (.ok ()), .click,
          .settle (.error "Network error")]).1.isFollowing = false := by
  exact ⟨rfl, rfl⟩

/-- C1, amended: when the mutation settles with an error, the local state
is set to the `initialIsFollowing` prop value captured by the pending
`handleFollow` closure — which coincides with the pre-flip value only when
the local state agreed with the prop — and an error toast is emitted. -/
theorem C1_rollback_amended (session : Session) (userId msg : String)
    (s : FollowButtonState) (captured : Bool)
    (h : s.pendingCaptured = some captured) :
    (fbStep (some session) userId s (.settle (.error msg))).1.isFollowing = captured
    ∧ FollowEffect.toastError msg
        ∈ (fbStep (some session) userId s (.settle (.error msg))).2 := by
  simp [fbStep, h]

/-- C1, amended, witness: a pending unfollow (local state `true`, captured
prop `false`) that fails ends with local state `false` and an error toast. -/
theorem C1_rollback_amended_witness :
    (fbStep (some ⟨"viewer"⟩) "creator" ⟨true, false, some false⟩
        (.settle (.error "boom"))).1.isFollowing = false
    ∧ FollowEffect.toastError "boom"
        ∈ (fbStep (some ⟨"viewer"⟩) "creator" ⟨true, false, some false⟩
            (.settle (.error "boom"))).2 :=
  C1_rollback_amended ⟨"viewer"⟩ "creator" "boom" ⟨true, false, some false⟩ false rfl

/-- C3, counterexample: the claim says a baseline prop change arriving
while a mutation is in flight must not overwrite the optimistic local
state. Concretely: from baseline `false`, a click optimistically sets the
local state to `true` and leaves the mutation pending; two baseline
changes (`true`, then `false`) arrive before settlement, and the
unconditional prop-sync effect drives the local state to `false` while the
mutation is still pending, overwriting the optimistic `true`. -/
theorem C3_baseline_sync_counterexample :
    (fbRun (some ⟨"viewer"⟩) "creator" ⟨false, false, none⟩
        [.click]).1.isFollowing = true
    ∧ (fbRun (some ⟨"viewer"⟩) "creator" ⟨false, false, none⟩
        [.click, .propChange true, .propChange false]).1
      = ⟨false, false, some false⟩ := by
  exact ⟨rfl, rfl⟩

/-- C3, amended: the coordinator resynchronizes the local state to every
new `isFollowing` baseline, with no regard to a pending mutation: the
prop-sync effect runs whenever the prop value changes, also while a
follow or unfollow mutation is in flight. -/
theorem C3_baseline_sync_amended (session : Option Session) (userId : String)
    (s : FollowButtonState) (b : Bool) (h : b ≠ s.baseline) :
    fbStep session userId s (.propChange b)
      = ({ s with isFollowing := b, baseline := b }, []) := by
  simp [fbStep, h]

/-- C3, amended, witness: a baseline change to `false` while a mutation is
pending (captured prop `true`) resynchronizes the local state to `false`
and keeps the mutation pending. -/
theorem C3_baseline_sync_amended_witness :
    fbStep (some ⟨"viewer"⟩) "creator" ⟨true, true, some true⟩ (.propChange false)
      = (⟨false, false, some true⟩, []) :=
  C3_baseline_sync_amended (some ⟨"viewer"⟩) "creator" ⟨true, true, some true⟩ false
    (by decide)

/-- C4: when the target user id equals the authenticated user id, the
follow control renders nothing at all (`null`), for every follow state and
loading state: a self-follow transition is structurally impossible. -/
theorem C4_self_follow_guard (u : Session) (isFollowing isLoading : Bool) :
    renderFollowButton (some u) u.userId isFollowing isLoading = none := by
  simp [renderFollowButton]

/-- C5: a click with no active session performs zero follow or unfollow
mutation calls, leaves the state (in particular `isFollowing`) unchanged,
and emits the sign-in toast together with the `/login` redirect. -/
theorem C5_unauthenticated_noop (userId : String) (s : FollowButtonState)
    (h : s.pendingCaptured = none) :
    fbStep none userId s .click
      = (s, [.toastError "Please sign in to follow users", .pushRoute "/login"])
    ∧ (fbStep none userId s .click).2.filter isMutationEffect = [] := by
  have h1 : fbStep none userId s .click
      = (s, [.toastError "Please sign in to follow users", .pushRoute "/login"]) := by
    simp [fbStep, h]
  exact ⟨h1, by rw [h1]; rfl⟩

/-- C5, witness: from the idle unfollowed state with no session, a click
changes nothing, issues no mutation, and emits the sign-in toast and the
redirect. -/
theorem C5_unauthenticated_noop_witness :
    fbStep none "creator" ⟨false, false, none⟩ .click
      = (⟨false, false, none⟩,
         [.toastError "Please sign in to follow users", .pushRoute "/login"])
    ∧ (fbStep none "creator" ⟨false, false, none⟩ .click).2.filter isMutationEffect = [] :=
  C5_unauthenticated_noop "creator" ⟨false, false, none⟩ rfl

/-- C2, counterexample: the claim says switching back to `grid` restores
the originally configured `itemsPerRow`. Concretely: a feed configured
with `itemsPerRow = 2` and `showSidecards = true`, mounted in grid mode,
toggled to `list` and back to `grid`, ends with `currentItemsPerRow = 4`
(the literal written in the handler), not the configured `2`. -/
theorem C2_grid_restore_counterexample :
    (handleViewModeChange true
        (handleViewModeChange true
          (initializeViewState .grid 2 true (initialViewState .grid 2 true)) .list)
        .grid).currentItemsPerRow = 4
    ∧ (handleViewModeChange true
        (handleViewModeChange true
          (initializeViewState .grid 2 true (initialViewState .grid 2 true)) .list)
        .grid).currentItemsPerRow ≠ 2 := by
  exact ⟨rfl, by decide⟩

/-- C2, amended: with the sidecards capability, switching to `list` sets
`currentItemsPerRow` to `1` and enables sidecards, and switching to `grid`
sets `currentItemsPerRow` to the constant `4` (regardless of the
configured value) and disables sidecards; without the capability a
view-mode switch changes only `viewMode`. -/
theorem C2_view_mode_amended (s : ViewState) (mode : ViewMode) :
    handleViewModeChange true s .list = ⟨.list, 1, true⟩
    ∧ handleViewModeChange true s .grid = ⟨.grid, 4, false⟩
    ∧ handleViewModeChange false s mode = { s with viewMode := mode } := by
  refine ⟨?_, ?_, ?_⟩ <;> simp [handleViewModeChange]

/-- C6: for every source whose `isFetchingNextPage` flag is set or whose
`hasNextPage` flag is cleared, neither `fetchMoreForCurrentTab` nor the
gated `fetchNextPage` trigger issues a page request for that source, for
every active tab: the next page is never requested while the previous one
is still in flight or after the last page. -/
theorem C6_fetch_gating (activeTab : String) (f : FeedFlags) (src : FeedSource)
    (h : (f.get src).isFetchingNextPage = true ∨ (f.get src).hasNextPage = false) :
    src ∉ fetchMoreForCurrentTab activeTab f ∧ src ∉ fetchNextPage activeTab f := by
  have hmain : src ∉ fetchMoreForCurrentTab activeTab f := by
    unfold fetchMoreForCurrentTab
    split_ifs <;> intro hmem <;>
      simp only [List.mem_singleton, List.not_mem_nil] at hmem <;>
      subst hmem <;> simp_all [FeedFlags.get]
  refine ⟨hmain, ?_⟩
  unfold fetchNextPage
  split
  · exact hmain
  · simp

/-- C6, witness: with the trending source reporting no next page, the
trigger issues no trending request on the trending tab. -/
theorem C6_fetch_gating_witness :
    FeedSource.trending ∉ fetchMoreForCurrentTab "trending"
        ⟨⟨false, false⟩, ⟨true, false⟩, ⟨true, false⟩, ⟨true, false⟩⟩
    ∧ FeedSource.trending ∉ fetchNextPage "trending"
        ⟨⟨false, false⟩, ⟨true, false⟩, ⟨true, false⟩, ⟨true, false⟩⟩ :=
  C6_fetch_gating "trending" ⟨⟨false, false⟩, ⟨true, false⟩, ⟨true, false⟩, ⟨true, false⟩⟩
    .trending (Or.inr rfl)

/-- C7: with `activeTab = "creators"`, `refreshFeed` performs the creators
reload and then, through the missing `break`, falls into the `default`
case and additionally performs the trending reload, in both retrieval
modes; the other three tabs perform exactly one reload, so refresh is
mutually exclusive for them but not for the creators tab. -/
theorem C7_creators_fallthrough :
    (∀ infiniteScroll : Bool,
      refreshCalls "creators" infiniteScroll
        = [(if infiniteScroll then ReloadCall.creatorsInfinite else .creatorsPaged),
           (if infiniteScroll then ReloadCall.trendingInfinite else .trendingPaged)])
    ∧ (∀ infiniteScroll : Bool,
        (refreshCalls "trending" infiniteScroll).length = 1
        ∧ (refreshCalls "following" infiniteScroll).length = 1
        ∧ (refreshCalls "assets" infiniteScroll).length = 1
        ∧ (refreshCalls "creators" infiniteScroll).length = 2) := by
  decide

/-- C8: the flattened item list of an infinite source equals the ordered
concatenation of its pages, preserving page order and within-page order;
and when the backend cursor contract holds (each page free of duplicate
ids and the pages pairwise disjoint on ids), the flattened list carries no
duplicate item identity. -/
theorem C8_flatten_pages (d : InfiniteAssetsData)
    (hpage : ∀ p ∈ d.pages, (p.assets.map Asset.id).Nodup)
    (hdisj : d.pages.Pairwise
      (fun p q => (p.assets.map Asset.id).Disjoint (q.assets.map Asset.id))) :
    flattenInfiniteAssets (some d) = (d.pages.map AssetPage.assets).flatten
    ∧ ((flattenInfiniteAssets (some d)).map Asset.id).Nodup := by
  constructor
  · rfl
  · show ((d.pages.flatMap fun page => page.assets).map Asset.id).Nodup
    rw [List.map_flatMap]
    exact List.nodup_flatMap.mpr ⟨hpage, hdisj⟩

/-- C8, witness: two concrete pages with distinct ids flatten to their
concatenation, and the flattened ids are duplicate-free. -/
theorem C8_flatten_pages_witness :
    flattenInfiniteAssets (some ⟨[⟨[⟨"a1"⟩, ⟨"a2"⟩]⟩, ⟨[⟨"a3"⟩]⟩]⟩)
        = (([⟨[⟨"a1"⟩, ⟨"a2"⟩]⟩, ⟨[⟨"a3"⟩]⟩] : List AssetPage).map AssetPage.assets).flatten
    ∧ ((flattenInfiniteAssets (some ⟨[⟨[⟨"a1"⟩, ⟨"a2"⟩]⟩, ⟨[⟨"a3"⟩]⟩]⟩)).map Asset.id).Nodup :=
  C8_flatten_pages ⟨[⟨[⟨"a1"⟩, ⟨"a2"⟩]⟩, ⟨[⟨"a3"⟩]⟩]⟩ (by decide)
    (by simp [List.pairwise_cons, List.disjoint_left])

/-- C9: each of the eight source queries receives the `search` filter, the
first element of `selectedTags` (later elements are ignored; an empty
selection forwards nothing), and the coerced `selectedType` exactly when
its tab is the active tab, and `undefined` for all of them otherwise; the
creators queries take no `type` field at all. -/
theorem C9_filter_binding (activeTab searchQuery : String)
    (selectedTags : List String) (selectedType : Option String)
    (sessionPresent infiniteScroll : Bool) :
    ((trendingInfiniteQueryArgs activeTab searchQuery selectedTags selectedType infiniteScroll).search
        = if activeTab = "trending" then some searchQuery else none)
    ∧ ((trendingInfiniteQueryArgs activeTab searchQuery selectedTags selectedType infiniteScroll).tag
        = if activeTab = "trending" then selectedTags.head? else none)
    ∧ ((trendingInfiniteQueryArgs activeTab searchQuery selectedTags selectedType infiniteScroll).type
        = if activeTab = "trending" then jsOrUndefined selectedType else none)
    ∧ ((followingInfiniteQueryArgs activeTab searchQuery selectedTags selectedType sessionPresent infiniteScroll).search
        = if activeTab = "following" then some searchQuery else none)
    ∧ ((followingInfiniteQueryArgs activeTab searchQuery selectedTags selectedType sessionPresent infiniteScroll).tag
        = if activeTab = "following" then selectedTags.head? else none)
    ∧ ((followingInfiniteQueryArgs activeTab searchQuery selectedTags selectedType sessionPresent infiniteScroll).type
        = if activeTab = "following" then jsOrUndefined selectedType else none)
    ∧ ((assetsInfiniteQueryArgs activeTab searchQuery selectedTags selectedType infiniteScroll).search
        = if activeTab = "assets" then some searchQuery else none)
    ∧ ((assetsInfiniteQueryArgs activeTab searchQuery selectedTags selectedType infiniteScroll).tag
        = if activeTab = "assets" then selectedTags.head? else none)
    ∧ ((assetsInfiniteQueryArgs activeTab searchQuery selectedTags selectedType infiniteScroll).type
        = if activeTab = "assets" then jsOrUndefined selectedType else none)
    ∧ ((creatorsInfiniteQueryArgs activeTab searchQuery selectedTags infiniteScroll).search
        = if activeTab = "creators" then some searchQuery else none)
    ∧ ((creatorsInfiniteQueryArgs activeTab searchQuery selectedTags infiniteScroll).tag
        = if activeTab = "creators" then selectedTags.head? else none)
    ∧ ((trendingPagedQueryArgs activeTab searchQuery selectedTags selectedType infiniteScroll).search
        = if activeTab = "trending" then some searchQuery else none)
    ∧ ((trendingPagedQueryArgs activeTab searchQuery selectedTags selectedType infiniteScroll).tag
        = if activeTab = "trending" then selectedTags.head? else none)
    ∧ ((trendingPagedQueryArgs activeTab searchQuery selectedTags selectedType infiniteScroll).type
        = if activeTab = "trending" then jsOrUndefined selectedType else none)
    ∧ ((followingPagedQueryArgs activeTab searchQuery selectedTags selectedType sessionPresent infiniteScroll).search
        = if activeTab = "following" then some searchQuery else none)
    ∧ ((followingPagedQueryArgs activeTab searchQuery selectedTags selectedType sessionPresent infiniteScroll).tag
        = if activeTab = "following" then selectedTags.head? else none)
    ∧ ((followingPagedQueryArgs activeTab searchQuery selectedTags selectedType sessionPresent infiniteScroll).type
        = if activeTab = "following" then jsOrUndefined selectedType else none)
    ∧ ((assetsPagedQueryArgs activeTab searchQuery selectedTags selectedType infiniteScroll).search
        = if activeTab = "assets" then some searchQuery else none)
    ∧ ((assetsPagedQueryArgs activeTab searchQuery selectedTags selectedType infiniteScroll).tag
        = if activeTab = "assets" then selectedTags.head? else none)
    ∧ ((assetsPagedQueryArgs activeTab searchQuery selectedTags selectedType infiniteScroll).type
        = if activeTab = "assets" then jsOrUndefined selectedType else none)
    ∧ ((creatorsPagedQueryArgs activeTab searchQuery selectedTags infiniteScroll).search
        = if activeTab = "creators" then some searchQuery else none)
    ∧ ((creatorsPagedQueryArgs activeTab searchQuery selectedTags infiniteScroll).tag
        = if activeTab = "creators" then selectedTags.head? else none) :=
  ⟨rfl, tag_guard_eq_head _ _, rfl,
   rfl, tag_guard_eq_head _ _, rfl,
   rfl, tag_guard_eq_head _ _, rfl,
   rfl, tag_guard_eq_head _ _,
   rfl, tag_guard_eq_head _ _, rfl,
   rfl, tag_guard_eq_head _ _, rfl,
   rfl, tag_guard_eq_head _ _, rfl,
   rfl, tag_guard_eq_head _ _⟩

/-- C10: every `refreshFeed` invocation sets the refreshing flag on entry
and, through the `finally` block, schedules the reset of the flag to
`false` with a 500 ms delay, for every tab, retrieval mode, and reload
outcome — also when the awaited reload rejects. -/
theorem C10_refresh_always_resets (activeTab : String) (infiniteScroll : Bool)
    (outcome : ReloadCall → Except String Unit) :
    (refreshFeed activeTab infiniteScroll outcome).scheduledResetDelayMs = some 500
    ∧ (refreshFeed activeTab infiniteScroll outcome).setRefreshingOnEntry = true :=
  ⟨rfl, rfl⟩

end PixelShelf
